import Mathlib

/-!
Verification of the Civitai-downloader repository against its specification.

The Python sources under `src/` are shallowly embedded below: every pure
helper becomes a Lean function on `String` (represented through its
`List Char` data), dictionaries become association lists in source order,
and the effectful pipeline (`downloader.py`, `model_processor.py`) is
embedded as pure functions over an explicit environment `Env` that decides
the outcome of each network/disk operation, returning the same result
records the Python code builds.  Logging calls are mirrored as returned
`LogEntry` lists.
-/

/-! ### Python string primitives (over `String.data`) -/

/-- Python `str.lower()` (ASCII letters, as `Char.toLower`). -/
def pyLower (s : String) : String := ⟨s.data.map Char.toLower⟩

/-- Python `str.strip()`: drop leading and trailing whitespace. -/
def pyStripList (cs : List Char) : List Char :=
  ((cs.dropWhile Char.isWhitespace).reverse.dropWhile Char.isWhitespace).reverse

/-- Python `str.strip()` on strings. -/
def pyStrip (s : String) : String := ⟨pyStripList s.data⟩

/-- Occurrence of `needle` as a contiguous substring of `hay`
(Python `needle in hay`). -/
def listContainsSub : List Char → List Char → Bool
  | [], needle => needle.isEmpty
  | c :: t, needle => needle.isPrefixOf (c :: t) || listContainsSub t needle

/-- Python `needle in hay` for strings. -/
def pyIn (needle hay : String) : Bool := listContainsSub hay.data needle.data

/-- Python `s.endswith(suffix)`. -/
def pyEndsWith (s suf : String) : Bool := suf.data.isSuffixOf s.data

/-- Python `s.replace(a, b)` for single characters. -/
def pyReplaceChar (s : String) (a b : Char) : String :=
  ⟨s.data.map (fun c => if c = a then b else c)⟩

/-- Two-digit zero-padded decimal, Python `f-string` format `02d`
(numbers of three or more digits are printed unpadded). -/
def pad2 (n : Nat) : String := if n < 10 then "0" ++ toString n else toString n

/-! ### Logging -/

/-- Severity of a `logging` call in the Python sources. -/
inductive LogLevel where
  | info
  | warning
  | error
deriving DecidableEq

/-- One `logger.<level>(msg)` call. -/
structure LogEntry where
  level : LogLevel
  msg : String
deriving DecidableEq

/-! ### Data model (JSON records coming back from the catalog API)

Fields read with Python `dict.get` are `Option`s (`none` = key absent);
fields read with mandatory indexing (`d['k']`) are plain, as the claims
only concern records where they are present.
-/

/-- One entry of `version['files']` as read by `downloader.py`. -/
structure FileEntry where
  type : Option String := none
  name : String := ""
  downloadUrl : String := ""
deriving DecidableEq

/-- One entry of `version['images']` as read by `downloader.py`. -/
structure ImageEntry where
  url : Option String := none
deriving DecidableEq

/-- The version record used by the pipeline. -/
structure Version where
  id : Nat := 0
  baseModel : Option String := none
  files : List FileEntry := []
  images : List ImageEntry := []
  name : Option String := none
  description : Option String := none
  trainedWords : List String := []
deriving DecidableEq

/-- The model record used by the pipeline. -/
structure ModelRec where
  name : Option String := none
  type : Option String := none
  description : Option String := none
  tags : List String := []
deriving DecidableEq

/-! ### `config.py` -/

/-- `Config.BASE_MODEL_DIR` (path rendered with `/` separators). -/
def BASE_MODEL_DIR : String := "N:/Models"

/-- `Config.MAX_PREVIEW_IMAGES`. -/
def MAX_PREVIEW_IMAGES : Nat := 3

/-- Python `dict` lookup over an insertion-ordered association list
(keys in these tables are pairwise distinct). -/
def dictLookup {α : Type} [DecidableEq α] (key : α) : List (α × String) → Option String
  | [] => none
  | e :: rest => if e.1 = key then some e.2 else dictLookup key rest

/-- `Config.BASE_MODEL_MAPPINGS`, in source order. -/
def BASE_MODEL_MAPPINGS : List (String × String) :=
  [ ("flux.1 [dev]", "flux.1 [dev]"),
    ("flux.1 [schnell]", "flux.1 [schnell]"),
    ("flux1dev", "flux.1 [dev]"),
    ("flux1schnell", "flux.1 [schnell]"),
    ("flux dev", "flux.1 [dev]"),
    ("flux schnell", "flux.1 [schnell]"),
    ("sdxl 1.0", "sdxl 1.0"),
    ("sdxl", "sdxl 1.0"),
    ("sdxl turbo", "sdxl turbo"),
    ("illustrious xl v0.1", "illustrious xl v0.1"),
    ("illustrious", "illustrious xl v0.1"),
    ("pony", "pony"),
    ("pony diffusion xl", "pony"),
    ("sd 1.5", "sd 1.5"),
    ("sd1.5", "sd 1.5"),
    ("stable diffusion 1.5", "sd 1.5"),
    ("sd 2.1", "sd 2.1"),
    ("sd2.1", "sd 2.1"),
    ("hunyuan-dit", "hunyuan-dit"),
    ("hunyuan video", "hunyuan video"),
    ("kolors", "kolors"),
    ("lumina-t2x", "lumina-t2x"),
    ("mochi", "mochi"),
    ("ltx-video", "ltx-video"),
    ("cogvideox-2b", "cogvideox-2b"),
    ("cogvideox-5b", "cogvideox-5b"),
    ("noobai xl", "noobai xl") ]

/-- `Config.MODEL_TYPE_DIRS`, in source order. -/
def MODEL_TYPE_DIRS : List ((String × String) × String) :=
  [ (("checkpoint", "flux.1 [dev]"), "FLUX/FLUX.1-Dev/Checkpoint"),
    (("checkpoint merge", "flux.1 [dev]"), "FLUX/FLUX.1-Dev/Checkpoint"),
    (("lora", "flux.1 [dev]"), "FLUX/FLUX.1-Dev/Lora"),
    (("textualinversion", "flux.1 [dev]"), "FLUX/FLUX.1-Dev/Embeddings"),
    (("controlnet", "flux.1 [dev]"), "FLUX/FLUX.1-Dev/ControlNet"),
    (("checkpoint", "flux.1 [schnell]"), "FLUX/FLUX.1-Schnell/Checkpoint"),
    (("checkpoint merge", "flux.1 [schnell]"), "FLUX/FLUX.1-Schnell/Checkpoint"),
    (("lora", "flux.1 [schnell]"), "FLUX/FLUX.1-Schnell/Lora"),
    (("textualinversion", "flux.1 [schnell]"), "FLUX/FLUX.1-Schnell/Embeddings"),
    (("controlnet", "flux.1 [schnell]"), "FLUX/FLUX.1-Schnell/ControlNet"),
    (("checkpoint", "flux"), "FLUX/General/Checkpoint"),
    (("checkpoint merge", "flux"), "FLUX/General/Checkpoint"),
    (("lora", "flux"), "FLUX/General/Lora"),
    (("textualinversion", "flux"), "FLUX/General/Embeddings"),
    (("controlnet", "flux"), "FLUX/General/ControlNet"),
    (("checkpoint", "illustrious xl v0.1"), "SDXL/Illustrious/Checkpoint"),
    (("checkpoint merge", "illustrious xl v0.1"), "SDXL/Illustrious/Checkpoint"),
    (("lora", "illustrious xl v0.1"), "SDXL/Illustrious/Lora"),
    (("textualinversion", "illustrious xl v0.1"), "SDXL/Illustrious/Embeddings"),
    (("controlnet", "illustrious xl v0.1"), "SDXL/Illustrious/ControlNet"),
    (("checkpoint", "pony"), "SDXL/Pony/Checkpoint"),
    (("checkpoint merge", "pony"), "SDXL/Pony/Checkpoint"),
    (("lora", "pony"), "SDXL/Pony/Lora"),
    (("textualinversion", "pony"), "SDXL/Pony/Embeddings"),
    (("controlnet", "pony"), "SDXL/Pony/ControlNet"),
    (("checkpoint", "sdxl 1.0"), "SDXL/Base/Checkpoint"),
    (("checkpoint merge", "sdxl 1.0"), "SDXL/Base/Checkpoint"),
    (("lora", "sdxl 1.0"), "SDXL/Base/Lora"),
    (("textualinversion", "sdxl 1.0"), "SDXL/Base/Embeddings"),
    (("hypernetwork", "sdxl 1.0"), "SDXL/Base/Hypernetworks"),
    (("controlnet", "sdxl 1.0"), "SDXL/Base/ControlNet"),
    (("checkpoint", "sdxl turbo"), "SDXL/Turbo/Checkpoint"),
    (("checkpoint merge", "sdxl turbo"), "SDXL/Turbo/Checkpoint"),
    (("lora", "sdxl turbo"), "SDXL/Turbo/Lora"),
    (("checkpoint", "sd 1.5"), "SD15/Checkpoint"),
    (("checkpoint merge", "sd 1.5"), "SD15/Checkpoint"),
    (("lora", "sd 1.5"), "SD15/Lora"),
    (("textualinversion", "sd 1.5"), "SD15/Embeddings"),
    (("hypernetwork", "sd 1.5"), "SD15/Hypernetworks"),
    (("controlnet", "sd 1.5"), "SD15/ControlNet"),
    (("checkpoint", "sd 2.1"), "SD21/Checkpoint"),
    (("checkpoint merge", "sd 2.1"), "SD21/Checkpoint"),
    (("lora", "sd 2.1"), "SD21/Lora"),
    (("textualinversion", "sd 2.1"), "SD21/Embeddings"),
    (("controlnet", "sd 2.1"), "SD21/ControlNet"),
    (("checkpoint", "hunyuan-dit"), "Hunyuan/Hunyuan-DiT/Checkpoint"),
    (("checkpoint merge", "hunyuan-dit"), "Hunyuan/Hunyuan-DiT/Checkpoint"),
    (("lora", "hunyuan-dit"), "Hunyuan/Hunyuan-DiT/Lora"),
    (("checkpoint", "hunyuan video"), "Hunyuan/Hunyuan-Video/Checkpoint"),
    (("checkpoint merge", "hunyuan video"), "Hunyuan/Hunyuan-Video/Checkpoint"),
    (("lora", "hunyuan video"), "Hunyuan/Hunyuan-Video/Lora"),
    (("checkpoint", "kolors"), "Kolors/Checkpoint"),
    (("checkpoint merge", "kolors"), "Kolors/Checkpoint"),
    (("lora", "kolors"), "Kolors/Lora"),
    (("textualinversion", "kolors"), "Kolors/Embeddings"),
    (("controlnet", "kolors"), "Kolors/ControlNet"),
    (("checkpoint", "lumina-t2x"), "Lumina/Checkpoint"),
    (("checkpoint merge", "lumina-t2x"), "Lumina/Checkpoint"),
    (("lora", "lumina-t2x"), "Lumina/Lora"),
    (("checkpoint", "mochi"), "Mochi/Checkpoint"),
    (("checkpoint merge", "mochi"), "Mochi/Checkpoint"),
    (("lora", "mochi"), "Mochi/Lora"),
    (("checkpoint", "ltx-video"), "LTX-Video/Checkpoint"),
    (("checkpoint merge", "ltx-video"), "LTX-Video/Checkpoint"),
    (("lora", "ltx-video"), "LTX-Video/Lora"),
    (("checkpoint", "cogvideox-2b"), "CogVideoX/2B/Checkpoint"),
    (("checkpoint merge", "cogvideox-2b"), "CogVideoX/2B/Checkpoint"),
    (("lora", "cogvideox-2b"), "CogVideoX/2B/Lora"),
    (("checkpoint", "cogvideox-5b"), "CogVideoX/5B/Checkpoint"),
    (("checkpoint merge", "cogvideox-5b"), "CogVideoX/5B/Checkpoint"),
    (("lora", "cogvideox-5b"), "CogVideoX/5B/Lora"),
    (("checkpoint", "noobai xl"), "NoobAI/XL/Checkpoint"),
    (("checkpoint merge", "noobai xl"), "NoobAI/XL/Checkpoint"),
    (("lora", "noobai xl"), "NoobAI/XL/Lora"),
    (("textualinversion", "noobai xl"), "NoobAI/XL/Embeddings"),
    (("checkpoint", "unknown"), "Other/Checkpoint"),
    (("checkpoint merge", "unknown"), "Other/Checkpoint"),
    (("lora", "unknown"), "Other/Lora"),
    (("textualinversion", "unknown"), "Other/Embeddings"),
    (("hypernetwork", "unknown"), "Other/Hypernetworks"),
    (("controlnet", "unknown"), "Other/ControlNet") ]

/-! ### `utils.py` -/

/-- Characters removed by `sanitize_filename`:
the regex class in `re.sub(..., '', name)`. -/
def ILLEGAL_FILENAME_CHARS : List Char :=
  ['<', '>', ':', '"', '/', '\\', '|', '?', '*', '\n', '\r', '\t']

/-- `utils.sanitize_filename`: remove the illegal characters, strip
surrounding whitespace, then replace spaces with underscores. -/
def sanitize_filename (name : String) : String :=
  pyReplaceChar (pyStrip ⟨name.data.filter (fun c => !ILLEGAL_FILENAME_CHARS.contains c)⟩) ' ' '_'

/-- Attempt of the regex `models/(\d+)(?:\?modelVersionId=(\d+))?` at a fixed
position: literal `models/`, a maximal nonempty digit run, then optionally the
literal `?modelVersionId=` followed by a maximal nonempty digit run. -/
def reMatchAt (cs : List Char) : Option (String × Option String) :=
  if "models/".data.isPrefixOf cs then
    let rest := cs.drop 7
    let ds := rest.takeWhile Char.isDigit
    if ds.isEmpty then none
    else
      let rest2 := rest.drop ds.length
      if "?modelVersionId=".data.isPrefixOf rest2 then
        let ds2 := (rest2.drop 16).takeWhile Char.isDigit
        if ds2.isEmpty then some (⟨ds⟩, none) else some (⟨ds⟩, some ⟨ds2⟩)
      else some (⟨ds⟩, none)
  else none

/-- `re.search` semantics: try the pattern at each position from the left,
returning the leftmost match. -/
def reSearch : List Char → Option (String × Option String)
  | [] => none
  | c :: t =>
    match reMatchAt (c :: t) with
    | some r => some r
    | none => reSearch t

/-- `utils.parse_model_url`: returns `(model_id, version_id)` group captures,
or `(none, none)` when the regex does not match. -/
def parse_model_url (url : String) : Option String × Option String :=
  match reSearch url.data with
  | some r => (some r.1, r.2)
  | none => (none, none)

/-- The partial-match loop of `get_base_model_key`: first table entry whose
key occurs in the base-model string or vice versa. -/
def partialMatch (base_model : String) : Option (String × String) :=
  BASE_MODEL_MAPPINGS.find? (fun kv => pyIn kv.1 base_model || pyIn base_model kv.1)

/-- `utils.get_base_model_key`: normalize `version.get("baseModel", "")`,
returning the classification key and the log lines emitted. -/
def get_base_model_key (version : Version) : String × List LogEntry :=
  let base_model := pyStrip (pyLower (version.baseModel.getD ""))
  if base_model = "" then
    ("unknown", [⟨LogLevel.warning, "No baseModel found in version info"⟩])
  else
    match dictLookup base_model BASE_MODEL_MAPPINGS with
    | some value => (value, [])
    | none =>
      match partialMatch base_model with
      | some kv =>
        (kv.2, [⟨LogLevel.info, "Matched " ++ base_model ++ " to " ++ kv.2 ++ " via partial match"⟩])
      | none =>
        ("unknown", [⟨LogLevel.warning, "Unknown base model " ++ base_model ++ ", using unknown"⟩])

/-- `utils.determine_target_dir`: pick the configured subdirectory for
`(model_type.lower(), base_model_key)`, falling back to the
`(model_type.lower(), "unknown")` entry and then to `Other/Unknown`; the
returned path is `BASE_MODEL_DIR / subdir / base_name` (the `mkdir` side
effect is not modelled).  Log lines are returned alongside. -/
def determine_target_dir (model_type base_model_key base_name : String) :
    String × List LogEntry :=
  let model_type_lower := pyLower model_type
  match dictLookup (model_type_lower, base_model_key) MODEL_TYPE_DIRS with
  | some subdir =>
    (BASE_MODEL_DIR ++ "/" ++ subdir ++ "/" ++ base_name,
     [⟨LogLevel.info, "Target directory set"⟩])
  | none =>
    let subdir := (dictLookup (model_type_lower, "unknown") MODEL_TYPE_DIRS).getD "Other/Unknown"
    (BASE_MODEL_DIR ++ "/" ++ subdir ++ "/" ++ base_name,
     [⟨LogLevel.warning, "No specific directory mapping, using fallback: " ++ subdir⟩,
      ⟨LogLevel.info, "Target directory set"⟩])

/-- The per-model folder name built in `ModelProcessor.process_model`
(line 51): `f"{clean_name}_{model_id}_{version['id']}"` with
`clean_name = sanitize_filename(raw_name)`.  The version id is kept as the
string it is rendered to inside the f-string. -/
def make_base_name (raw_name model_id version_id : String) : String :=
  sanitize_filename raw_name ++ "_" ++ model_id ++ "_" ++ version_id

/-! ### Helper lemmas -/

/-- `Char.toLower` fixes whitespace characters. -/
theorem toLower_of_isWhitespace {c : Char} (h : c.isWhitespace) : c.toLower = c := by
  simp only [Char.isWhitespace, Bool.or_eq_true, decide_eq_true_eq] at h
  rcases h with ((h | h) | h) | h <;> subst h <;> decide

/-- `dropWhile` consumes a list all of whose elements satisfy the predicate. -/
theorem dropWhile_eq_nil_of_forall {α : Type} (p : α → Bool) (l : List α)
    (h : ∀ c ∈ l, p c) : l.dropWhile p = [] := by
  induction l with
  | nil => rfl
  | cons a t ih =>
    rw [List.dropWhile_cons, if_pos (h a (by simp))]
    exact ih (fun c hc => h c (by simp [hc]))

/-- Stripping an all-whitespace string yields the empty string. -/
theorem pyStrip_eq_empty {s : String} (h : ∀ c ∈ s.data, c.isWhitespace) :
    pyStrip s = "" := by
  unfold pyStrip pyStripList
  rw [dropWhile_eq_nil_of_forall _ _ h]
  rfl

/-- Claim C1: a base-model string that, after lower-casing and trimming, is
present verbatim as a key of `Config.BASE_MODEL_MAPPINGS` is normalized by
`get_base_model_key` to exactly that key's mapped value (the exact match is
tried before any partial/substring match). -/
theorem get_base_model_key_exact_match (s v : String)
    (h : dictLookup (pyStrip (pyLower s)) BASE_MODEL_MAPPINGS = some v) :
    (get_base_model_key {baseModel := some s}).1 = v := by
  have h0 : dictLookup "" BASE_MODEL_MAPPINGS = none := by decide
  have hne : ¬ pyStrip (pyLower s) = "" := by
    intro he
    rw [he, h0] at h
    exact Option.noConfusion h
  simp only [get_base_model_key, Option.getD_some, if_neg hne, h]

/-- Witness for C1 at the concrete input `" SDXL "`. -/
theorem get_base_model_key_exact_match_witness :
    (get_base_model_key {baseModel := some " SDXL "}).1 = "sdxl 1.0" :=
  get_base_model_key_exact_match " SDXL " "sdxl 1.0" (by decide)

/-- Claim C3: an absent, empty or all-whitespace base-model string makes
`get_base_model_key` return `"unknown"` with a warning logged; the function
is total, so no exception is possible. -/
theorem get_base_model_key_blank_input (s : String)
    (h : ∀ c ∈ s.data, c.isWhitespace) :
    get_base_model_key {baseModel := some s} =
      ("unknown", [⟨LogLevel.warning, "No baseModel found in version info"⟩]) := by
  have hl : ∀ c ∈ (pyLower s).data, c.isWhitespace := by
    intro c hc
    simp only [pyLower, List.mem_map] at hc
    obtain ⟨a, ha, rfl⟩ := hc
    rw [toLower_of_isWhitespace (h a ha)]
    exact h a ha
  have he : pyStrip (pyLower s) = "" := pyStrip_eq_empty hl
  simp [get_base_model_key, he]

/-- Witness for C3 at the whitespace-only input `"  "`. -/
theorem get_base_model_key_blank_input_witness :
    get_base_model_key {baseModel := some "  "} =
      ("unknown", [⟨LogLevel.warning, "No baseModel found in version info"⟩]) :=
  get_base_model_key_blank_input "  " (by decide)

/-- Claim C2: `determine_target_dir` uses the `(model_type.lower(), key)`
entry of `Config.MODEL_TYPE_DIRS` when present, else the
`(model_type.lower(), "unknown")` entry, else the literal `"Other/Unknown"`,
always joined as `BASE_MODEL_DIR/subdir/base_name`. -/
theorem determine_target_dir_route_table (model_type base_model_key base_name : String) :
    (∀ d, dictLookup (pyLower model_type, base_model_key) MODEL_TYPE_DIRS = some d →
        (determine_target_dir model_type base_model_key base_name).1 =
          BASE_MODEL_DIR ++ "/" ++ d ++ "/" ++ base_name) ∧
    (dictLookup (pyLower model_type, base_model_key) MODEL_TYPE_DIRS = none →
      ∀ d, dictLookup (pyLower model_type, "unknown") MODEL_TYPE_DIRS = some d →
        (determine_target_dir model_type base_model_key base_name).1 =
          BASE_MODEL_DIR ++ "/" ++ d ++ "/" ++ base_name) ∧
    (dictLookup (pyLower model_type, base_model_key) MODEL_TYPE_DIRS = none →
      dictLookup (pyLower model_type, "unknown") MODEL_TYPE_DIRS = none →
        (determine_target_dir model_type base_model_key base_name).1 =
          BASE_MODEL_DIR ++ "/" ++ "Other/Unknown" ++ "/" ++ base_name) := by
  refine ⟨?_, ?_, ?_⟩
  · intro d hd
    simp [determine_target_dir, hd]
  · intro h1 d h2
    simp [determine_target_dir, h1, h2]
  · intro h1 h2
    simp [determine_target_dir, h1, h2]

/-- Witness for C2: a hit in the route table at `("Checkpoint", "pony")`. -/
theorem determine_target_dir_route_table_witness :
    (determine_target_dir "Checkpoint" "pony" "M_1_2").1 =
      BASE_MODEL_DIR ++ "/" ++ "SDXL/Pony/Checkpoint" ++ "/" ++ "M_1_2" :=
  (determine_target_dir_route_table "Checkpoint" "pony" "M_1_2").1
    "SDXL/Pony/Checkpoint" (by decide)

/-- `(a ++ b).data = a.data ++ b.data` for the embedding's string appends. -/
theorem strData_append (a b : String) : (a ++ b).data = a.data ++ b.data := by
  cases a
  cases b
  rfl

/-- Splitting at the first occurrence of a separator is unique. -/
theorem first_sep_split {sep : Char} :
    ∀ (A A' B B' : List Char), sep ∉ A → sep ∉ A' →
      A ++ sep :: B = A' ++ sep :: B' → A = A' ∧ B = B' := by
  intro A
  induction A with
  | nil =>
    intro A' B B' _ hA' heq
    cases A' with
    | nil =>
      simp only [List.nil_append] at heq
      exact ⟨rfl, (List.cons.injEq _ _ _ _ ▸ heq).2⟩
    | cons a t =>
      simp only [List.nil_append, List.cons_append, List.cons.injEq] at heq
      exact absurd (heq.1 ▸ List.mem_cons_self a t) hA'
  | cons a t ih =>
    intro A' B B' hA hA' heq
    cases A' with
    | nil =>
      simp only [List.cons_append, List.nil_append, List.cons.injEq] at heq
      exact absurd (heq.1 ▸ List.mem_cons_self a t) hA
    | cons a' t' =>
      simp only [List.cons_append, List.cons.injEq] at heq
      obtain ⟨h1, h2⟩ := heq
      have := ih t' B B' (fun hm => hA (List.mem_cons_of_mem a hm))
        (fun hm => hA' (List.mem_cons_of_mem a' hm)) h2
      exact ⟨by rw [h1, this.1], this.2⟩

/-- Splitting at the last occurrence of a separator is unique. -/
theorem last_sep_split {sep : Char} (X X' Y Y' : List Char)
    (hY : sep ∉ Y) (hY' : sep ∉ Y')
    (heq : X ++ sep :: Y = X' ++ sep :: Y') : X = X' ∧ Y = Y' := by
  have hrev : Y.reverse ++ sep :: X.reverse = Y'.reverse ++ sep :: X'.reverse := by
    have := congrArg List.reverse heq
    simpa [List.reverse_append] using this
  have h := first_sep_split Y.reverse Y'.reverse X.reverse X'.reverse
    (by simpa using hY) (by simpa using hY') hrev
  refine ⟨?_, ?_⟩
  · have := congrArg List.reverse h.2
    simpa using this
  · have := congrArg List.reverse h.1
    simpa using this

/-- Membership in a stripped list implies membership in the original list. -/
theorem mem_of_mem_pyStripList {c : Char} {l : List Char}
    (h : c ∈ pyStripList l) : c ∈ l := by
  unfold pyStripList at h
  rw [List.mem_reverse] at h
  have h2 := (List.dropWhile_sublist _).subset h
  rw [List.mem_reverse] at h2
  exact (List.dropWhile_sublist _).subset h2

/-- Claim C8, counterexample: folder names are not collision-free over raw
display names — sanitization conflates `"a b"` and `"a_b"`, so two distinct
(name, model id, version id) triples share a folder name. -/
theorem make_base_name_collision :
    make_base_name "a b" "1" "2" = make_base_name "a_b" "1" "2" ∧
      ("a b" : String) ≠ "a_b" := by
  constructor
  · rfl
  · decide

/-- Claim C8 as amended: folder-name generation is deterministic (it is a
function of the triple), and it is collision-free over
(sanitized name, model id, version id) triples whenever the two id strings
contain no underscore (decimal ids never do): equal folder names force equal
sanitized names and equal ids.  Sanitization outputs no character of the
illegal set and no space, and replaces spaces with underscores. -/
theorem make_base_name_injective_on_ids :
    (∀ n1 n2 m1 m2 v1 v2 : String,
        ('_' ∉ m1.data) → ('_' ∉ m2.data) → ('_' ∉ v1.data) → ('_' ∉ v2.data) →
        make_base_name n1 m1 v1 = make_base_name n2 m2 v2 →
        sanitize_filename n1 = sanitize_filename n2 ∧ m1 = m2 ∧ v1 = v2) ∧
    (∀ name : String, ∀ c ∈ (sanitize_filename name).data,
        c ∉ ILLEGAL_FILENAME_CHARS ∧ c ≠ ' ') ∧
    sanitize_filename "a b<c>" = "a_bc" := by
  refine ⟨?_, ?_, rfl⟩
  · intro n1 n2 m1 m2 v1 v2 hm1 hm2 hv1 hv2 heq
    have hdata := congrArg String.data heq
    simp only [make_base_name, strData_append] at hdata
    have hshape : ∀ (s m v : String),
        s.data ++ ("_" : String).data ++ m.data ++ ("_" : String).data ++ v.data =
          (s.data ++ '_' :: m.data) ++ '_' :: v.data := by
      intro s m v
      show s.data ++ ['_'] ++ m.data ++ ['_'] ++ v.data = _
      simp
    rw [hshape, hshape] at hdata
    have h1 := last_sep_split _ _ _ _ hv1 hv2 hdata
    have h2 := last_sep_split _ _ _ _ hm1 hm2 h1.1
    exact ⟨String.ext h2.1, String.ext h2.2, String.ext h1.2⟩
  · intro name c hc
    simp only [sanitize_filename, pyReplaceChar, pyStrip, List.mem_map] at hc
    obtain ⟨a, ha, rfl⟩ := hc
    have ha2 : a ∈ List.filter (fun c => !ILLEGAL_FILENAME_CHARS.contains c) name.data :=
      mem_of_mem_pyStripList ha
    have ha3 := List.of_mem_filter ha2
    have ha4 : a ∉ ILLEGAL_FILENAME_CHARS := by
      simpa using ha3
    by_cases hsp : a = ' '
    · simp only [if_pos hsp]
      exact ⟨by decide, by decide⟩
    · simp only [if_neg hsp]
      exact ⟨ha4, hsp⟩

/-- Witness for the amended C8 at concrete underscore-free ids. -/
theorem make_base_name_injective_on_ids_witness :
    sanitize_filename "My Model" = sanitize_filename "My Model" ∧
      ("10" : String) = "10" ∧ ("2" : String) = "2" :=
  make_base_name_injective_on_ids.1 "My Model" "My Model" "10" "10" "2" "2"
    (by decide) (by decide) (by decide) (by decide) rfl

/-! ### Environment for effectful operations

Network and disk effects are decided by an explicit environment: the embedded
pipeline functions are pure in `Env`, which answers what the API returns for a
model reference (`Except.error` models a raised exception, caught by
`process_model`), whether a file download succeeds, and whether the two
metadata save operations succeed. -/

/-- Oracle of the outside world for one pipeline run. -/
structure Env where
  fetch_model_info : String → Option String → Except String (Option (ModelRec × Version))
  download_ok : String → String → Bool
  save_html_ok : Bool
  save_metadata_ok : Bool

/-- Python `a or b` on two optional values (left-biased). -/
def optOr {α : Type} : Option α → Option α → Option α
  | some x, _ => some x
  | none, b => b

/-- Python truthiness of an optional string (`None` and `""` are falsy). -/
def pyTruthyStrOpt : Option String → Bool
  | none => false
  | some s => if s = "" then false else true

/-! ### `downloader.py` -/

/-- The selection loop of `ModelDownloader.download_model_file` (lines
157-163): walk the file descriptors keeping the first `Model`-typed
non-safetensors file as fallback, stopping at the first `Model`-typed
`.safetensors` file.  Returns `(safetensors_file, other_model_file)`. -/
def model_file_scan : List FileEntry → Option FileEntry → Option FileEntry × Option FileEntry
  | [], other => (none, other)
  | f :: fs, other =>
    if f.type == some "Model" then
      if pyEndsWith f.name ".safetensors" then (some f, other)
      else model_file_scan fs (optOr other (some f))
    else model_file_scan fs other

/-- `target_file = safetensors_file or other_model_file` after the loop. -/
def chooseModelFile (files : List FileEntry) : Option FileEntry :=
  let p := model_file_scan files none
  optOr p.1 p.2

/-- `ModelDownloader.download_model_file`: returns the downloaded file name
(or `none`) together with the list of `(url, path)` download attempts made. -/
def download_model_file (env : Env) (version : Version) (target_dir : String) :
    Option String × List (String × String) :=
  let files := version.files
  if files.isEmpty then (none, [])
  else
    match chooseModelFile files with
    | none => (none, [])
    | some tf =>
      let download_path := target_dir ++ "/" ++ tf.name
      if env.download_ok tf.downloadUrl download_path
      then (some tf.name, [(tf.downloadUrl, download_path)])
      else (none, [(tf.downloadUrl, download_path)])

/-- `os.path.splitext(p)[1]`: the extension (with dot) from the last dot of
the basename, empty when the basename has no dot after its leading dots. -/
def splitextExt (p : String) : String :=
  let b := (p.data.reverse.takeWhile (fun c => !(c = '/'))).reverse
  let afterLead := b.dropWhile (fun c => c = '.')
  if afterLead.contains '.' then
    ⟨'.' :: (b.reverse.takeWhile (fun c => !(c = '.'))).reverse⟩
  else ""

/-- Extension chosen by `ImageDownloader.download_images` (lines 107-109):
`.jpg` unless the lowered URL ends in a known image extension, in which case
`splitext` of the lowered URL. -/
def imageExt (url : String) : String :=
  let lurl := pyLower url
  if pyEndsWith lurl ".png" || pyEndsWith lurl ".jpeg" ||
      pyEndsWith lurl ".jpg" || pyEndsWith lurl ".webp"
  then splitextExt lurl
  else ".jpg"

/-- The body of the `for i, image in enumerate(images[:max_images])` loop of
`ImageDownloader.download_images`: an entry without URL is skipped (but keeps
its slot), otherwise `preview_{i+1:02d}{ext}` is downloaded and collected on
success.  Returns the saved file names; the saved path is
`target_dir ++ "/" ++ name`. -/
def download_images_go (env : Env) (target_dir : String) :
    List (Nat × ImageEntry) → List String
  | [] => []
  | (i, image) :: rest =>
    match image.url with
    | none => download_images_go env target_dir rest
    | some image_url =>
      let image_filename := "preview_" ++ pad2 (i + 1) ++ imageExt image_url
      if env.download_ok image_url (target_dir ++ "/" ++ image_filename)
      then image_filename :: download_images_go env target_dir rest
      else download_images_go env target_dir rest

/-- `ImageDownloader.download_images` with `max_images` defaulting to
`Config.MAX_PREVIEW_IMAGES`. -/
def download_images (env : Env) (version : Version) (target_dir : String)
    (max_images : Option Nat) : List String :=
  let mx := max_images.getD MAX_PREVIEW_IMAGES
  let images := version.images
  if images.isEmpty then []
  else download_images_go env target_dir ((images.take mx).enum)

/-! ### `html_generator.py` (the claim-relevant dynamic content)

The static page head, CSS and modal script of `_generate_html_template` are
constant text independent of the inputs; the embedding renders the dynamic
content block (template lines 337-345) together with the helper builders it
interpolates, and the description default of `generate_model_html`
(lines 28-29). -/

/-- `HTMLGenerator._create_image_gallery`. -/
def create_image_gallery (downloaded_images : List String) : String :=
  if downloaded_images.isEmpty then ""
  else
    "<div class=\x27image-gallery\x27>\n" ++
      String.join (downloaded_images.map (fun nm =>
        "        <img src=\x27" ++ nm ++ "\x27 alt=\x27Preview Image\x27 onclick=\x27openModal(this.src)\x27>\n")) ++
      "    </div>\n"

/-- `HTMLGenerator._create_tags_html`. -/
def create_tags_html (model_tags : List String) : String :=
  if model_tags.isEmpty then ""
  else
    "<div class=\x27tags\x27>\n" ++
      String.join (model_tags.map (fun tag => "        <span class=\x27tag\x27>" ++ tag ++ "</span>\n")) ++
      "    </div>\n"

/-- `HTMLGenerator._create_trained_words_html`. -/
def create_trained_words_html (trained_words : List String) : String :=
  if trained_words.isEmpty then ""
  else
    "<div class=\x27trained-words\x27>\n        <h3>Trained Words/Triggers:</h3>\n        <div class=\x27word-list\x27>\n" ++
      String.join (trained_words.map (fun word => "            <code>" ++ word ++ "</code>\n")) ++
      "        </div>\n    </div>\n"

/-- Template line 338: the description section is rendered only when the
description string differs from the sentinel `No description available`. -/
def description_section (model_description : String) : String :=
  if model_description = "No description available" then ""
  else "<div class=\"description\"><h3>Description</h3><p>" ++ model_description ++ "</p></div>"

/-- Template line 342: the tags heading appears only for a nonempty block. -/
def tags_section (tags_html : String) : String :=
  if tags_html = "" then "" else "<h3>Tags</h3>" ++ tags_html

/-- Template line 344: the gallery, or a placeholder when it is empty. -/
def images_section (image_gallery : String) : String :=
  if image_gallery = "" then "<p>No preview images available</p>"
  else "<h3>Preview Images</h3>" ++ image_gallery

/-- The dynamic content block of `_generate_html_template` (lines 337-345). -/
def html_content_block (model_description trained_words_html tags_html image_gallery : String) :
    String :=
  "<div class=\"content\">\n" ++ description_section model_description ++ "\n" ++
    trained_words_html ++ "\n" ++ tags_section tags_html ++ "\n" ++
    images_section image_gallery ++ "\n</div>"

/-- `HTMLGenerator.generate_model_html`, restricted to the content block:
the description defaults to the sentinel (line 29), tags are already
normalized to strings in the embedding, and the helper builders feed the
template's content div. -/
def generate_model_html (model : ModelRec) (version : Version)
    (downloaded_images : List String) : String :=
  let model_description := model.description.getD "No description available"
  let trained_words_html := create_trained_words_html version.trainedWords
  let tags_html := create_tags_html model.tags
  let image_gallery := create_image_gallery downloaded_images
  html_content_block model_description trained_words_html tags_html image_gallery

/-! ### `model_processor.py` -/

/-- The `downloaded_files` dictionary of `process_model`. -/
structure DownloadedFiles where
  model_file : Option String := none
  images : Option (List String) := none
  html_info : Option String := none
  metadata : Option String := none
deriving DecidableEq

/-- A processing-result dictionary.  Python reuses the `version_id` key with
the requested id (a string, failure dicts) or `version['id']` (an integer,
success dicts); the embedding separates them as `version_id` and
`version_id_num`. -/
structure DLResult where
  success : Bool := false
  error : Option String := none
  model_name : Option String := none
  model_id : Option String := none
  version_id : Option String := none
  version_id_num : Option Nat := none
  target_directory : Option String := none
  downloaded_files : Option DownloadedFiles := none
  base_name : Option String := none
  item : Option String := none
deriving DecidableEq

/-- The sequential build-up of `downloaded_files` in `process_model`
(lines 61-96): each artifact key is inserted only when its producer
succeeded. -/
def buildDownloadedFiles (model_filename : Option String)
    (downloaded_images : List String) (html_saved metadata_saved : Bool)
    (base_name : String) : DownloadedFiles :=
  let files0 : DownloadedFiles := {}
  let files1 := if pyTruthyStrOpt model_filename
    then {files0 with model_file := model_filename} else files0
  let files2 := if downloaded_images.isEmpty then files1
    else {files1 with images := some downloaded_images}
  let files3 := if html_saved
    then {files2 with html_info := some (base_name ++ "_info.html")} else files2
  if metadata_saved
  then {files3 with metadata := some (base_name ++ "_metadata.json")} else files3

/-- `ModelProcessor.process_model`: fetch, classify, route, download, document
and persist one model, returning the result dictionary.  An exception raised
by the fetch (`Except.error`) is caught by the surrounding try/except and
turned into a failure result (lines 110-117). -/
def process_model (env : Env) (model_id : String) (version_id : Option String)
    (original_url : Option String) : DLResult :=
  match env.fetch_model_info model_id version_id with
  | Except.error e =>
    { success := false, error := some ("Unexpected error: " ++ e),
      model_id := some model_id, version_id := version_id }
  | Except.ok none =>
    { success := false, error := some "Failed to fetch model information from API",
      model_id := some model_id, version_id := version_id }
  | Except.ok (some (model, version)) =>
    let raw_name := model.name.getD ("Model_" ++ model_id)
    let clean_name := sanitize_filename raw_name
    let base_name := clean_name ++ "_" ++ model_id ++ "_" ++ toString version.id
    let model_type := model.type.getD "Unknown"
    let base_model_key := (get_base_model_key version).1
    let target_dir := (determine_target_dir model_type base_model_key base_name).1
    let model_filename := (download_model_file env version target_dir).1
    let downloaded_images := download_images env version target_dir none
    let _html_content := generate_model_html model version downloaded_images
    let files := buildDownloadedFiles model_filename downloaded_images
      env.save_html_ok env.save_metadata_ok base_name
    { success := true, model_name := some raw_name, model_id := some model_id,
      version_id_num := some version.id, target_directory := some target_dir,
      downloaded_files := some files, base_name := some base_name }

/-- An element of the batch list fed to `process_multiple_models`: a URL
string, a tuple/list of length at least two, or anything else. -/
inductive ModelItem where
  | url (s : String)
  | pair (model_id : Option String) (version_id : Option String)
  | malformed (txt : String)
deriving DecidableEq

/-- `str(item)` as recorded in failure results. -/
def itemText : ModelItem → String
  | ModelItem.url s => s
  | ModelItem.pair a b => "(" ++ a.getD "None" ++ ", " ++ b.getD "None" ++ ")"
  | ModelItem.malformed t => t

/-- One iteration of the `process_multiple_models` loop (lines 131-160):
branch on the item's shape, reject an unextractable model id, otherwise run
`process_model`. -/
def process_item (env : Env) (item : ModelItem) : DLResult :=
  match item with
  | ModelItem.malformed _ =>
    { success := false, error := some "Invalid item format", item := some (itemText item) }
  | ModelItem.url s =>
    let parsed := parse_model_url s
    if pyTruthyStrOpt parsed.1 then
      process_model env (parsed.1.getD "") parsed.2 (some s)
    else
      { success := false, error := some "Could not extract model ID", item := some (itemText item) }
  | ModelItem.pair a b =>
    if pyTruthyStrOpt a then process_model env (a.getD "") b none
    else
      { success := false, error := some "Could not extract model ID", item := some (itemText item) }

/-- The accumulator loop of `process_multiple_models` (`results.append` once
per iteration, `continue` on the failure branches). -/
def process_loop (env : Env) : List ModelItem → List DLResult → List DLResult
  | [], results => results
  | item :: rest, results => process_loop env rest (results ++ [process_item env item])

/-- `ModelProcessor.process_multiple_models`. -/
def process_multiple_models (env : Env) (model_list : List ModelItem) : List DLResult :=
  process_loop env model_list []

/-! ### Claim C4: model-file selection policy -/

/-- A descriptor of type `Model` whose name ends in `.safetensors`. -/
def isSafetensorsModelFile (f : FileEntry) : Bool :=
  (f.type == some "Model") && pyEndsWith f.name ".safetensors"

/-- A descriptor of type `Model`. -/
def isModelFile (f : FileEntry) : Bool := f.type == some "Model"

theorem optOr_none_left {α : Type} (b : Option α) : optOr none b = b := rfl

theorem optOr_none_right {α : Type} (a : Option α) : optOr a none = a := by
  cases a <;> rfl

theorem optOr_some_left_absorb {α : Type} (a : Option α) (x : α) (b : Option α) :
    optOr (optOr a (some x)) b = optOr a (some x) := by
  cases a <;> rfl

/-- The scan loop realizes `first safetensors Model file, else the
accumulator, else the first Model file`. -/
theorem model_file_scan_or (files : List FileEntry) :
    ∀ acc, optOr (model_file_scan files acc).1 (model_file_scan files acc).2 =
      optOr (files.find? isSafetensorsModelFile)
        (optOr acc (files.find? isModelFile)) := by
  induction files with
  | nil =>
    intro acc
    simp [model_file_scan, List.find?, optOr_none_left, optOr_none_right]
  | cons f fs ih =>
    intro acc
    by_cases h1 : (f.type == some "Model") = true
    · by_cases h2 : pyEndsWith f.name ".safetensors" = true
      · have hp : isSafetensorsModelFile f = true := by
          simp [isSafetensorsModelFile, h1, h2]
        simp only [model_file_scan]
        rw [if_pos h1, if_pos h2, List.find?_cons_of_pos _ hp]
        cases acc <;> rfl
      · have hp : isSafetensorsModelFile f = false := by
          simp [isSafetensorsModelFile, h2]
        have hm : isModelFile f = true := h1
        simp only [model_file_scan]
        rw [if_pos h1, if_neg h2, ih (optOr acc (some f)),
          List.find?_cons_of_neg _ (by simp [hp]),
          List.find?_cons_of_pos _ hm, optOr_some_left_absorb]
    · have hp : isSafetensorsModelFile f = false := by
        simp [isSafetensorsModelFile, h1]
      have hm : isModelFile f = false := by
        simpa [isModelFile] using h1
      simp only [model_file_scan]
      rw [if_neg h1, ih acc, List.find?_cons_of_neg _ (by simp [hp]),
        List.find?_cons_of_neg _ (by simp [hm])]

/-- The chosen target file in closed form. -/
theorem chooseModelFile_spec (files : List FileEntry) :
    chooseModelFile files =
      optOr (files.find? isSafetensorsModelFile) (files.find? isModelFile) := by
  have h := model_file_scan_or files none
  simpa [chooseModelFile, optOr_none_left] using h

/-- Claim C4: `download_model_file` targets the first `Model`-typed
`.safetensors` descriptor; failing that, the first `Model`-typed descriptor;
and when no `Model`-typed descriptor exists (an empty list included) it
attempts no download and returns `none`. -/
theorem download_model_file_selection (env : Env) (version : Version) (target_dir : String) :
    (∀ f, version.files.find? isSafetensorsModelFile = some f →
        chooseModelFile version.files = some f) ∧
    (version.files.find? isSafetensorsModelFile = none →
        chooseModelFile version.files = version.files.find? isModelFile) ∧
    ((∀ f ∈ version.files, ¬ f.type = some "Model") →
        download_model_file env version target_dir = (none, [])) := by
  refine ⟨?_, ?_, ?_⟩
  · intro f hf
    rw [chooseModelFile_spec, hf]
    rfl
  · intro h
    rw [chooseModelFile_spec, h, optOr_none_left]
  · intro h
    have hm : version.files.find? isModelFile = none := by
      rw [List.find?_eq_none]
      intro x hx
      simp only [isModelFile, beq_iff_eq]
      exact fun hT => h x hx (by simpa using hT)
    have hs : version.files.find? isSafetensorsModelFile = none := by
      rw [List.find?_eq_none]
      intro x hx
      simp only [isSafetensorsModelFile, Bool.and_eq_true, beq_iff_eq]
      rintro ⟨hT, _⟩
      exact h x hx (by simpa using hT)
    have hc : chooseModelFile version.files = none := by
      rw [chooseModelFile_spec, hs, hm]
      rfl
    unfold download_model_file
    by_cases he : version.files.isEmpty = true
    · simp [he]
    · simp [he, hc]

/-- An environment where every operation succeeds and the catalog is empty. -/
def allOkEnv : Env :=
  { fetch_model_info := fun _ _ => Except.ok none,
    download_ok := fun _ _ => true,
    save_html_ok := true, save_metadata_ok := true }

/-- A version carrying a non-safetensors Model file before a safetensors
Model file. -/
def vTwoFiles : Version :=
  { files := [ { type := some "Model", name := "a.ckpt", downloadUrl := "u1" },
               { type := some "Model", name := "b.safetensors", downloadUrl := "u2" } ] }

/-- Witness for C4: the later safetensors descriptor wins over the earlier
plain Model descriptor. -/
theorem download_model_file_selection_witness :
    chooseModelFile vTwoFiles.files =
      some { type := some "Model", name := "b.safetensors", downloadUrl := "u2" } :=
  (download_model_file_selection allOkEnv vTwoFiles "D").1
    { type := some "Model", name := "b.safetensors", downloadUrl := "u2" } (by decide)

/-! ### Claim C10: the preview-image window -/

/-- The per-entry outcome of the image loop: `none` for a skipped entry
(missing URL or failed download), the saved name otherwise. -/
def imageSlotOutcome (env : Env) (target_dir : String) (p : Nat × ImageEntry) :
    Option String :=
  match p.2.url with
  | none => none
  | some image_url =>
    let image_filename := "preview_" ++ pad2 (p.1 + 1) ++ imageExt image_url
    if env.download_ok image_url (target_dir ++ "/" ++ image_filename)
    then some image_filename else none

/-- The image loop is a `filterMap` of the per-entry outcome. -/
theorem download_images_go_eq_filterMap (env : Env) (target_dir : String)
    (l : List (Nat × ImageEntry)) :
    download_images_go env target_dir l = l.filterMap (imageSlotOutcome env target_dir) := by
  induction l with
  | nil => rfl
  | cons p rest ih =>
    obtain ⟨i, img⟩ := p
    cases himg : img.url with
    | none =>
      simp [download_images_go, List.filterMap_cons, imageSlotOutcome, himg, ih]
    | some u =>
      simp only [download_images_go, List.filterMap_cons, imageSlotOutcome, himg]
      split <;> simp [ih]

/-- Claim C10: `download_images` only ever looks at the first `n` entries of
the image list (an entry with a missing URL still consumes its slot), names
each saved file `preview_{p:02d}` from the entry's 1-based slot inside that
window (so gaps can appear), and returns at most `n` names in catalog order;
the concrete final conjunct exhibits a gap: the first slot is skipped and the
saved file is `preview_02.png` with no `preview_01`. -/
theorem download_images_window (env : Env) (version : Version)
    (target_dir : String) (n : Nat) :
    download_images env version target_dir (some n) =
      download_images env { version with images := version.images.take n }
        target_dir (some n) ∧
    download_images env version target_dir (some n) =
      (version.images.take n).enum.filterMap (imageSlotOutcome env target_dir) ∧
    (download_images env version target_dir (some n)).length ≤ n ∧
    download_images allOkEnv { images := [{ url := none }, { url := some "http://e/x.png" }] }
      "D" (some 3) = ["preview_02.png"] := by
  have hmain : ∀ v : Version, download_images env v target_dir (some n) =
      (v.images.take n).enum.filterMap (imageSlotOutcome env target_dir) := by
    intro v
    unfold download_images
    by_cases he : v.images.isEmpty = true
    · rw [if_pos he]
      rw [List.isEmpty_iff] at he
      simp [he]
    · rw [if_neg he]
      simp [download_images_go_eq_filterMap]
  refine ⟨?_, hmain version, ?_, by rfl⟩
  · rw [hmain version, hmain { version with images := version.images.take n }]
    simp [List.take_take]
  · rw [hmain version]
    calc (List.filterMap (imageSlotOutcome env target_dir) (version.images.take n).enum).length
        ≤ (version.images.take n).enum.length := List.length_filterMap_le _ _
      _ = (version.images.take n).length := List.enum_length
      _ ≤ n := List.length_take_le n version.images

/-! ### Claim C5: soft failure of the model-file download -/

/-- Without a model file name, no later manifest insertion touches the
`model_file` key. -/
theorem buildDownloadedFiles_model_file_none (imgs : List String) (h m : Bool)
    (bn : String) : (buildDownloadedFiles none imgs h m bn).model_file = none := by
  cases h <;> cases m <;> by_cases hi : imgs.isEmpty = true <;>
    simp [buildDownloadedFiles, pyTruthyStrOpt, hi]

/-- Claim C5: once the catalog fetch succeeds, `process_model` reports
success, and a version without any `Model`-typed file descriptor still yields
a success result whose manifest merely lacks the `model_file` key. -/
theorem process_model_success_manifest (env : Env) (model_id : String)
    (version_id : Option String) (original_url : Option String)
    (model : ModelRec) (version : Version)
    (hfetch : env.fetch_model_info model_id version_id =
      Except.ok (some (model, version))) :
    (process_model env model_id version_id original_url).success = true ∧
    ((∀ f ∈ version.files, ¬ f.type = some "Model") →
      ∃ files, (process_model env model_id version_id original_url).downloaded_files =
          some files ∧ files.model_file = none) := by
  constructor
  · simp [process_model, hfetch]
  · intro hnof
    simp only [process_model, hfetch]
    refine ⟨_, rfl, ?_⟩
    rw [(download_model_file_selection env version _).2.2 hnof]
    exact buildDownloadedFiles_model_file_none _ _ _ _

/-- A version whose only file descriptor is not `Model`-typed. -/
def vNoModelFiles : Version :=
  { id := 5, files := [ { type := some "Config", name := "cfg.yaml", downloadUrl := "u" } ] }

/-- A model record for tests. -/
def mTest : ModelRec := { name := some "M" }

/-- An environment whose fetch succeeds with `vNoModelFiles`. -/
def fetchOkEnv : Env :=
  { fetch_model_info := fun _ _ => Except.ok (some (mTest, vNoModelFiles)),
    download_ok := fun _ _ => true,
    save_html_ok := true, save_metadata_ok := true }

/-- Witness for C5 on a version with zero qualifying file descriptors. -/
theorem process_model_success_manifest_witness :
    (process_model fetchOkEnv "9" none none).success = true ∧
    ∃ files, (process_model fetchOkEnv "9" none none).downloaded_files = some files ∧
      files.model_file = none :=
  ⟨(process_model_success_manifest fetchOkEnv "9" none none mTest vNoModelFiles rfl).1,
   (process_model_success_manifest fetchOkEnv "9" none none mTest vNoModelFiles rfl).2
     (by decide)⟩

/-! ### Claim C6: batch iteration -/

/-- The append-accumulator loop is a `map`. -/
theorem process_loop_eq_map (env : Env) (l : List ModelItem) :
    ∀ acc, process_loop env l acc = acc ++ l.map (process_item env) := by
  induction l with
  | nil =>
    intro acc
    simp [process_loop]
  | cons i rest ih =>
    intro acc
    simp [process_loop, ih]

/-- Claim C6: the batch produces exactly one result per item in input order
(it is the `map` of the per-item step); a malformed item or one without an
extractable model id fails on its own, and an exception thrown during one
item's fetch is caught and turned into that item's failure result, leaving
the rest of the loop intact. -/
theorem process_multiple_models_batch (env : Env) (items : List ModelItem) :
    (process_multiple_models env items).length = items.length ∧
    process_multiple_models env items = items.map (process_item env) ∧
    (∀ t, (process_item env (ModelItem.malformed t)).success = false) ∧
    (∀ s, (parse_model_url s).1 = none →
        (process_item env (ModelItem.url s)).success = false) ∧
    (∀ model_id version_id original_url e,
        env.fetch_model_info model_id version_id = Except.error e →
        (process_model env model_id version_id original_url).success = false) := by
  have hmap : process_multiple_models env items = items.map (process_item env) := by
    unfold process_multiple_models
    simpa using process_loop_eq_map env items []
  refine ⟨by rw [hmap]; simp, hmap, ?_, ?_, ?_⟩
  · intro t
    rfl
  · intro s hs
    simp [process_item, hs, pyTruthyStrOpt]
  · intro model_id version_id original_url e he
    simp [process_model, he]

/-- An environment whose fetch raises. -/
def raiseEnv : Env :=
  { fetch_model_info := fun _ _ => Except.error "boom",
    download_ok := fun _ _ => true,
    save_html_ok := true, save_metadata_ok := true }

/-- Witness for C6: a raised fetch exception becomes a failure result. -/
theorem process_multiple_models_batch_witness :
    (process_model raiseEnv "7" none none).success = false :=
  (process_multiple_models_batch raiseEnv []).2.2.2.2 "7" none none "boom" rfl

/-! ### Claim C7: reference parsing -/

/-- Claim C7: the three canonical parses of `parse_model_url`, and rejection
of an unparsable reference by the batch loop without consulting the
environment (no network call). -/
theorem parse_model_url_examples :
    parse_model_url "https://x/models/123" = (some "123", none) ∧
    parse_model_url "https://x/models/123?modelVersionId=456" = (some "123", some "456") ∧
    parse_model_url "not a url" = (none, none) ∧
    (∀ env env2 : Env, ∀ s : String, (parse_model_url s).1 = none →
      process_item env (ModelItem.url s) = process_item env2 (ModelItem.url s) ∧
      (process_item env (ModelItem.url s)).success = false) := by
  refine ⟨by rfl, by rfl, by rfl, ?_⟩
  intro env env2 s hs
  constructor
  · simp [process_item, hs, pyTruthyStrOpt]
  · simp [process_item, hs, pyTruthyStrOpt]

/-- Witness for C7 at the unparsable reference `"not a url"`. -/
theorem parse_model_url_examples_witness :
    (process_item allOkEnv (ModelItem.url "not a url")).success = false :=
  (parse_model_url_examples.2.2.2 allOkEnv allOkEnv "not a url" rfl).2

/-! ### Claim C9: the description section -/

/-- A list that occurs contiguously is found by `listContainsSub`. -/
theorem listContainsSub_append (pre needle post : List Char) :
    listContainsSub (pre ++ needle ++ post) needle = true := by
  induction pre with
  | nil =>
    simp only [List.nil_append]
    cases h : needle ++ post with
    | nil =>
      have hn : needle = [] := (List.append_eq_nil.mp h).1
      subst hn
      rfl
    | cons c t =>
      have hpre : needle <+: (c :: t) := h ▸ List.prefix_append needle post
      simp [listContainsSub, List.isPrefixOf_iff_prefix.mpr hpre]
  | cons a t ih =>
    simp only [List.cons_append]
    show (needle.isPrefixOf _ || listContainsSub (t ++ needle ++ post) needle) = true
    rw [ih, Bool.or_true]

/-- String-level corollary: a string equal to `pre ++ needle ++ post`
contains `needle`. -/
theorem pyIn_of_decomp (needle hay pre post : String)
    (h : hay = pre ++ needle ++ post) : pyIn needle hay = true := by
  subst h
  unfold pyIn
  rw [strData_append, strData_append]
  exact listContainsSub_append pre.data needle.data post.data

/-- String append is associative (via the data representation). -/
theorem strAppend_assoc (a b c : String) : a ++ b ++ c = a ++ (b ++ c) :=
  String.ext (by simp [strData_append])

/-- Claim C9, counterexample: for a model without a description the generated
content contains no description heading and no placeholder text at all — the
section is omitted, not rendered as a neutral placeholder. -/
theorem generate_model_html_no_placeholder :
    pyIn "Description" (generate_model_html {} {} []) = false ∧
    pyIn "No description available" (generate_model_html {} {} []) = false := by
  constructor <;> decide

/-- Claim C9 as amended: when no description is present the description
section of the content block is the empty string (the sentinel default of
line 29 is filtered out by template line 338), and when a description is
present and differs from the sentinel the rendered page contains the
description div with its text. -/
theorem generate_model_html_description_policy (model : ModelRec)
    (version : Version) (imgs : List String) :
    (model.description = none →
      generate_model_html model version imgs =
        "<div class=\"content\">\n" ++ "" ++ "\n" ++
          create_trained_words_html version.trainedWords ++ "\n" ++
          tags_section (create_tags_html model.tags) ++ "\n" ++
          images_section (create_image_gallery imgs) ++ "\n</div>") ∧
    (∀ d, model.description = some d → d ≠ "No description available" →
      description_section d =
        "<div class=\"description\"><h3>Description</h3><p>" ++ d ++ "</p></div>" ∧
      pyIn (description_section d) (generate_model_html model version imgs) = true) := by
  constructor
  · intro h
    simp [generate_model_html, html_content_block, description_section, h]
  · intro d hd hne
    have hd2 : model.description.getD "No description available" = d := by
      rw [hd]
      rfl
    refine ⟨by simp [description_section, hne], ?_⟩
    apply pyIn_of_decomp _ _ "<div class=\"content\">\n"
      ("\n" ++ create_trained_words_html version.trainedWords ++ "\n" ++
        tags_section (create_tags_html model.tags) ++ "\n" ++
        images_section (create_image_gallery imgs) ++ "\n</div>")
    simp [generate_model_html, html_content_block, hd2, strAppend_assoc]

/-- Witness for the amended C9 at a concrete description. -/
theorem generate_model_html_description_policy_witness :
    description_section "hello" =
      "<div class=\"description\"><h3>Description</h3><p>" ++ "hello" ++ "</p></div>" ∧
    pyIn (description_section "hello")
      (generate_model_html { description := some "hello" } {} []) = true :=
  (generate_model_html_description_policy { description := some "hello" } {} []).2
    "hello" rfl (by decide)
